import Mathlib

/-!
Verification of the resilient request pipeline and response normalization
engine of `oxylabs_amazon_scraper.py` (Zanesville.Store repository).

The Python source is shallowly embedded: JSON documents become the `JVal`
inductive, Python dictionaries become association lists, every extractor of
the `OxylabsAmazonScraper` class becomes a total Lean function, and the
retry loop of `_make_request_with_retry` becomes a fuel-indexed recursion
over an oracle `Nat → AttemptOutcome` describing the outcome of each
upstream attempt.  Exceptions are modelled with `Except`/`Option`.
-/

namespace Scraper

/-- JSON-like Python values: the payloads handled by the scraper.
Numbers are restricted to integers (no claim exercises floats). -/
inductive JVal where
  | null
  | bool (b : Bool)
  | int (n : Int)
  | str (s : String)
  | arr (xs : List JVal)
  | obj (fields : List (String × JVal))

/-- Python truthiness (`bool(v)`) on the modelled values. -/
def truthy : JVal → Bool
  | .null => false
  | .bool b => b
  | .int n => n != 0
  | .str s => s != ""
  | .arr xs => !xs.isEmpty
  | .obj fs => !fs.isEmpty

/-- Dictionary lookup (`key in d` / `d[key]`), first binding wins. -/
def lookupKey : List (String × JVal) → String → Option JVal
  | [], _ => none
  | (k, v) :: rest, key => if k = key then some v else lookupKey rest key

/-- Remove every binding of `key` (used to reason about absent keys). -/
def eraseKey (key : String) : List (String × JVal) → List (String × JVal)
  | [] => []
  | (k, v) :: rest => if k = key then eraseKey key rest else (k, v) :: eraseKey key rest

/-- Python `dict` assignment `d[k] = v`: replace in place or append. -/
def dictInsert (fs : List (String × JVal)) (k : String) (v : JVal) :
    List (String × JVal) :=
  if fs.any (fun p => p.1 = k) then
    fs.map (fun p => if p.1 = k then (k, v) else p)
  else fs ++ [(k, v)]

/-- Python `dict.update`: fold the right dictionary into the left. -/
def dictUpdate (fs new : List (String × JVal)) : List (String × JVal) :=
  new.foldl (fun acc p => dictInsert acc p.1 p.2) fs

/-- The characters stripped by Python `str.strip()` (ASCII whitespace). -/
def isPySpace (c : Char) : Bool :=
  c = ' ' || c = '\t' || c = '\n' || c = '\x0d' || c = '\x0b' || c = '\x0c'

/-- Python `str.strip()`. -/
def pyStrip (s : String) : String :=
  String.mk (((s.data.dropWhile isPySpace).reverse.dropWhile isPySpace).reverse)

def squote : Char := Char.ofNat 39

def dquote : Char := Char.ofNat 34

def backslashChar : Char := Char.ofNat 92

def hexDigit (n : Nat) : Char :=
  if n < 10 then Char.ofNat (48 + n) else Char.ofNat (87 + n)

/-- Escaping of one character inside a Python `repr` of a string,
given the chosen quote character. -/
def pyCharEscape (q c : Char) : String :=
  if c = backslashChar then String.mk [backslashChar, backslashChar]
  else if c = q then String.mk [backslashChar, q]
  else if c = '\n' then String.mk [backslashChar, 'n']
  else if c = '\x0d' then String.mk [backslashChar, 'r']
  else if c = '\t' then String.mk [backslashChar, 't']
  else if c.toNat < 32 || c.toNat = 127 then
    String.mk [backslashChar, 'x', hexDigit (c.toNat / 16), hexDigit (c.toNat % 16)]
  else String.mk [c]

/-- Python `repr` of a string: single quotes unless the string contains a
single quote and no double quote. -/
def pyStrRepr (s : String) : String :=
  let q := if s.data.contains squote && !(s.data.contains dquote) then dquote else squote
  String.mk [q] ++ String.join (s.data.map (pyCharEscape q)) ++ String.mk [q]

mutual

/-- Python `repr` of a modelled value. -/
def pyRepr : JVal → String
  | .null => "None"
  | .bool true => "True"
  | .bool false => "False"
  | .int n => toString n
  | .str s => pyStrRepr s
  | .arr xs => "[" ++ pyReprList xs ++ "]"
  | .obj fs => "\x7b" ++ pyReprObj fs ++ "\x7d"

def pyReprList : List JVal → String
  | [] => ""
  | [x] => pyRepr x
  | x :: y :: rest => pyRepr x ++ ", " ++ pyReprList (y :: rest)

def pyReprObj : List (String × JVal) → String
  | [] => ""
  | [p] => pyStrRepr p.1 ++ ": " ++ pyRepr p.2
  | p :: q :: rest => pyStrRepr p.1 ++ ": " ++ pyRepr p.2 ++ ", " ++ pyReprObj (q :: rest)

end

/-- Python `str()` of a modelled value (`str` is identity on strings,
`repr` elsewhere; containers render their items with `repr`). -/
def pyStr : JVal → String
  | .str s => s
  | v => pyRepr v

/-! ### Model of `decimal.Decimal` construction from a string and `str()`

Only the plain numeric-string form (optional sign, digits, at most one
point) is accepted, which covers every string the scraper can pass to
`Decimal` (price strings are first cleaned to `[0-9.,]` with commas
removed, and `str(int)` values).  `decToString` implements the
to-scientific-string rule of the decimal specification. -/

structure Dec where
  neg : Bool
  coeff : List Char
  exp : Int
  deriving DecidableEq

def stripLeadingZeros (ds : List Char) : List Char :=
  let r := ds.dropWhile (fun c => c = '0')
  if r.isEmpty then ['0'] else r

/-- Parse the digit part `intDigits [. fracDigits]`; all characters must be
digits with at most one point and at least one digit overall. -/
def decParseDigits (cs : List Char) : Option (List Char × List Char) :=
  let intPart := cs.takeWhile Char.isDigit
  let rest := cs.dropWhile Char.isDigit
  match rest with
  | [] => if intPart.isEmpty then none else some (intPart, [])
  | '.' :: frac =>
    if frac.all Char.isDigit && !(intPart.isEmpty && frac.isEmpty) then
      some (intPart, frac)
    else none
  | _ => none

/-- `Decimal(s)` for plain numeric strings; `none` models
`InvalidOperation`. -/
def decParse (s : String) : Option Dec :=
  let cs := (s.data.dropWhile isPySpace).reverse.dropWhile isPySpace |>.reverse
  let signAndRest : Bool × List Char :=
    match cs with
    | '-' :: rest => (true, rest)
    | '+' :: rest => (false, rest)
    | rest => (false, rest)
  match decParseDigits signAndRest.2 with
  | none => none
  | some (intPart, frac) =>
    some { neg := signAndRest.1
           coeff := stripLeadingZeros (intPart ++ frac)
           exp := -(frac.length : Int) }

def replicateChar (n : Nat) (c : Char) : List Char :=
  List.replicate n c

/-- `str()` of a `Decimal` (to-scientific-string). -/
def decToString (d : Dec) : String :=
  let sign := if d.neg then "-" else ""
  let adjusted : Int := d.exp + d.coeff.length - 1
  if d.exp ≤ 0 ∧ -6 ≤ adjusted then
    -- plain notation
    if d.exp = 0 then sign ++ String.mk d.coeff
    else
      let pointPos : Int := (d.coeff.length : Int) + d.exp
      if 0 < pointPos then
        sign ++ String.mk (d.coeff.take pointPos.toNat) ++ "." ++
          String.mk (d.coeff.drop pointPos.toNat)
      else
        sign ++ "0." ++ String.mk (replicateChar (-pointPos).toNat '0') ++
          String.mk d.coeff
  else
    -- scientific notation
    let head := String.mk (d.coeff.take 1)
    let tail := if d.coeff.length ≤ 1 then "" else "." ++ String.mk (d.coeff.drop 1)
    let esign := if 0 ≤ adjusted then "+" else ""
    sign ++ head ++ tail ++ "E" ++ esign ++ toString adjusted

/-- `str(Decimal(s))`, `none` when construction raises. -/
def decimalStr (s : String) : Option String :=
  (decParse s).map decToString

/-! ### Regex helpers used by the extractors -/

/-- First match of `(\d+(?:\.\d+)?)` starting at this position. -/
def ratingMatchAt (cs : List Char) : List Char :=
  let run1 := cs.takeWhile Char.isDigit
  let rest := cs.dropWhile Char.isDigit
  match rest with
  | '.' :: more =>
    if (more.takeWhile Char.isDigit).isEmpty then run1
    else run1 ++ '.' :: more.takeWhile Char.isDigit
  | _ => run1

def ratingScanAux : List Char → Option String
  | [] => none
  | c :: rest =>
    if c.isDigit then some (String.mk (ratingMatchAt (c :: rest)))
    else ratingScanAux rest

/-- `re.search(r'(\d+(?:\.\d+)?)', s)`: leftmost maximal decimal-looking run. -/
def ratingScan (s : String) : Option String := ratingScanAux s.data

def isDigitOrComma (c : Char) : Bool := c.isDigit || c = ','

def reviewsScanAux : List Char → Option String
  | [] => none
  | c :: rest =>
    if isDigitOrComma c then
      some (String.mk ((c :: rest).takeWhile isDigitOrComma))
    else reviewsScanAux rest

/-- `re.search(r'([\d,]+)', s)`: leftmost maximal digit-and-comma run. -/
def reviewsScan (s : String) : Option String := reviewsScanAux s.data

def removeCommas (s : String) : String :=
  String.mk (s.data.filter (fun c => c ≠ ','))

/-- `re.sub(r'[^\d.,]', '', s)`. -/
def priceClean (s : String) : String :=
  String.mk (s.data.filter (fun c => c.isDigit || c = '.' || c = ','))

/-- The delimiter class of `re.split(r'[\n•▪▫◦‣⁃]', s)`. -/
def bulletDelims : List Char := ['\n', '•', '▪', '▫', '◦', '‣', '⁃']

def splitBulletsAux : List Char → List Char → List String
  | [], acc => [String.mk acc.reverse]
  | c :: rest, acc =>
    if bulletDelims.contains c then String.mk acc.reverse :: splitBulletsAux rest []
    else splitBulletsAux rest (c :: acc)

/-- `re.split(r'[\n•▪▫◦‣⁃]', s)` (empty pieces kept, as `re.split` does). -/
def splitBullets (s : String) : List String := splitBulletsAux s.data []

/-! ### ASIN extraction (`_extract_asin_from_url`, `_validate_asin`) -/

def isAsinChar (c : Char) : Bool := c.isDigit || ('A' ≤ c && c ≤ 'Z')

/-- `ASIN_REGEX = ^B[0-9A-Z]{9}$` applied to a whole string. -/
def validateAsin (a : String) : Bool :=
  match a.data with
  | 'B' :: rest => rest.length = 9 && rest.all isAsinChar
  | _ => false

/-- Try to match the capture group `(B[0-9A-Z]{9})` at this position. -/
def matchCapture : List Char → Option String
  | 'B' :: rest =>
    let nine := rest.take 9
    if nine.length = 9 && nine.all isAsinChar then some (String.mk ('B' :: nine))
    else none
  | _ => none

/-- Match a literal at this position, returning the remainder. -/
def matchLiteral : List Char → List Char → Option (List Char)
  | cs, [] => some cs
  | c :: cs, l :: ls => if c = l then matchLiteral cs ls else none
  | [], _ :: _ => none

def searchPatAux (lit : List Char) : List Char → Option String
  | [] => none
  | c :: tl =>
    match matchLiteral (c :: tl) lit with
    | some rest =>
      match matchCapture rest with
      | some a => some a
      | none => searchPatAux lit tl
    | none => searchPatAux lit tl

/-- `re.search(lit ++ r'(B[0-9A-Z]{9})', url)`: leftmost occurrence of the
literal followed by a capture of the ASIN shape. -/
def searchPat (lit url : String) : Option String := searchPatAux lit.data url.data

/-- The literal parts of the four URL patterns, in the source's order. -/
def asinPatterns : List String := ["/dp/", "/product/", "/gp/product/", "asin="]

def tryPatterns (url : String) : List String → Option String
  | [] => none
  | p :: ps =>
    match searchPat p url with
    | some asin => if validateAsin asin then some asin else tryPatterns url ps
    | none => tryPatterns url ps

/-- `_extract_asin_from_url`: the first pattern whose capture passes
validation wins; otherwise `InvalidASINError`. -/
def extractAsinFromUrl (url : String) : Except String String :=
  match tryPatterns url asinPatterns with
  | some asin => .ok asin
  | none => .error ("Invalid or missing ASIN in URL: " ++ url)

/-! ### Field extractors of the normalizer -/

/-- `_safe_extract_text`: first truthy alternate key; strings are stripped,
lists/dicts stringified; other types (numbers, booleans) fall through. -/
def safeExtractText (content : List (String × JVal)) : List String → String
  | [] => ""
  | k :: ks =>
    match lookupKey content k with
    | some v =>
      if truthy v then
        match v with
        | .str s => pyStrip s
        | .arr xs => pyStr (.arr xs)
        | .obj fs => pyStr (.obj fs)
        | _ => safeExtractText content ks
      else safeExtractText content ks
    | none => safeExtractText content ks

def priceKeys : List String :=
  ["price", "current_price", "sale_price", "price_current", "price_range"]

/-- `_extract_and_format_price` over an explicit key list.  The result is
`none` when the Python code would raise out of the extractor (only possible
for a truthy `bool` value, where `Decimal(str(True))` raises), which the
per-field wrapper in `extract_and_format_product_data` then swallows. -/
def extractPriceLoop (content : List (String × JVal)) : List String → Option String
  | [] => some ""
  | k :: ks =>
    match lookupKey content k with
    | some v =>
      if truthy v then
        match v with
        | .str s =>
          match decimalStr (removeCommas (priceClean s)) with
          | some d => some d
          | none => some (pyStrip s)
        | .int n => decimalStr (toString n)
        | .bool b => decimalStr (pyStr (.bool b))
        | .obj fs =>
          match lookupKey fs "value" with
          | some pv => some (pyStr pv)
          | none =>
            match lookupKey fs "amount" with
            | some av => some (pyStr av)
            | none => extractPriceLoop content ks
        | _ => extractPriceLoop content ks
      else extractPriceLoop content ks
    | none => extractPriceLoop content ks

def extractAndFormatPrice (content : List (String × JVal)) : Option String :=
  extractPriceLoop content priceKeys

def ratingKeys : List String := ["rating", "average_rating", "stars", "rating_average"]

/-- `_extract_rating`: skips only `None`-valued keys (not other falsy
values); numeric values stringify directly (a `bool` is an `int` in Python,
so `True`/`False` stringify to `"True"`/`"False"`). -/
def extractRatingLoop (content : List (String × JVal)) : List String → String
  | [] => ""
  | k :: ks =>
    match lookupKey content k with
    | some .null => extractRatingLoop content ks
    | some (.str s) =>
      match ratingScan s with
      | some m => m
      | none => pyStrip s
    | some (.int n) => toString n
    | some (.bool b) => pyStr (.bool b)
    | some (.obj fs) =>
      match lookupKey fs "value" with
      | some pv => pyStr pv
      | none => extractRatingLoop content ks
    | some (.arr _) => extractRatingLoop content ks
    | none => extractRatingLoop content ks

def extractRating (content : List (String × JVal)) : String :=
  extractRatingLoop content ratingKeys

def reviewKeys : List String :=
  ["reviews_count", "review_count", "total_reviews", "number_of_reviews"]

/-- `_extract_reviews_count`: skips only `None`-valued keys; numeric values
pass through `str(int(v))`. -/
def extractReviewsLoop (content : List (String × JVal)) : List String → String
  | [] => ""
  | k :: ks =>
    match lookupKey content k with
    | some .null => extractReviewsLoop content ks
    | some (.str s) =>
      match reviewsScan s with
      | some run => removeCommas run
      | none => pyStrip s
    | some (.int n) => toString n
    | some (.bool b) => if b then "1" else "0"
    | some (.obj _) => extractReviewsLoop content ks
    | some (.arr _) => extractReviewsLoop content ks
    | none => extractReviewsLoop content ks

def extractReviewsCount (content : List (String × JVal)) : String :=
  extractReviewsLoop content reviewKeys

def bulletKeys : List String :=
  ["bullet_points", "features", "key_features", "highlights", "product_features"]

/-- `_extract_bullet_points`. -/
def extractBulletLoop (content : List (String × JVal)) : List String → List String
  | [] => []
  | k :: ks =>
    match lookupKey content k with
    | some v =>
      if truthy v then
        match v with
        | .arr items => (items.filter truthy).map (fun i => pyStrip (pyStr i))
        | .str s => ((splitBullets s).map pyStrip).filter (fun p => p ≠ "")
        | _ => extractBulletLoop content ks
      else extractBulletLoop content ks
    | none => extractBulletLoop content ks

def extractBulletPoints (content : List (String × JVal)) : List String :=
  extractBulletLoop content bulletKeys

def imageKeys : List String := ["images", "image_urls", "product_images", "photos"]

/-- `_extract_images`. -/
def extractImagesLoop (content : List (String × JVal)) : List String → List String
  | [] => []
  | k :: ks =>
    match lookupKey content k with
    | some v =>
      if truthy v then
        match v with
        | .arr items => (items.filter truthy).map pyStr
        | .str s => [s]
        | _ => extractImagesLoop content ks
      else extractImagesLoop content ks
    | none => extractImagesLoop content ks

def extractImages (content : List (String × JVal)) : List String :=
  extractImagesLoop content imageKeys

def specKeys : List String :=
  ["specifications", "specs", "technical_details", "product_details", "attributes"]

/-- One step of the list-to-dict conversion in `_extract_specifications`. -/
def specFold (acc : List (String × JVal)) : JVal → List (String × JVal)
  | .obj fs => dictUpdate acc fs
  | .str s =>
    if s.data.contains ':' then
      let kPart := String.mk (s.data.takeWhile (fun c => c ≠ ':'))
      let vPart := String.mk ((s.data.dropWhile (fun c => c ≠ ':')).drop 1)
      dictInsert acc (pyStrip kPart) (.str (pyStrip vPart))
    else acc
  | _ => acc

/-- `_extract_specifications`. -/
def extractSpecsLoop (content : List (String × JVal)) : List String → List (String × JVal)
  | [] => []
  | k :: ks =>
    match lookupKey content k with
    | some v =>
      if truthy v then
        match v with
        | .obj fs => fs
        | .arr items => items.foldl specFold []
        | _ => extractSpecsLoop content ks
      else extractSpecsLoop content ks
    | none => extractSpecsLoop content ks

def extractSpecifications (content : List (String × JVal)) : List (String × JVal) :=
  extractSpecsLoop content specKeys

/-! ### Structural validation (`_validate_response_structure`) -/

/-- The exceptions that can cross `_validate_response_structure` /
`extract_and_format_product_data`.  `typeError` models the `TypeError`s the
Python runtime raises on ill-typed `in`/indexing, caught by the outer
`except Exception` clause (its message text is environment-generated and
modelled by a fixed description). -/
inductive PyExc where
  | invalidASIN (msg : String)
  | invalidCredentials (msg : String)
  | rateLimit (msg : String)
  | apiConnection (msg : String)
  | dataExtraction (msg : String)
  | validation (msg : String)
  | typeError (msg : String)

/-- How `extract_and_format_product_data` folds a caught exception into the
record's error slot. -/
def excMessage : PyExc → String
  | .invalidASIN m => m
  | .invalidCredentials m => m
  | .rateLimit m => m
  | .apiConnection m => m
  | .validation m => "Validation error: " ++ m
  | .dataExtraction m => "Data extraction error: " ++ m
  | .typeError m => "Unexpected extraction error: " ++ m

/-- The error-marker branch of `_validate_response_structure`: maps the
`error` tag back to the corresponding exception. -/
def classifyErrorDict (fields : List (String × JVal)) : PyExc :=
  let emsg := pyStr ((lookupKey fields "message").getD (.str "Unknown error"))
  match lookupKey fields "error" with
  | some (.str t) =>
    if t = "invalid_asin" then .invalidASIN emsg
    else if t = "invalid_credentials" then .invalidCredentials emsg
    else if t = "rate_limit" then .rateLimit emsg
    else if t = "connection_error" then .apiConnection emsg
    else .dataExtraction ("API returned error: " ++ emsg)
  | _ => .dataExtraction ("API returned error: " ++ emsg)

def hasSubstr (pat : List Char) : List Char → Bool
  | [] => pat.isEmpty
  | c :: tl => (matchLiteral (c :: tl) pat).isSome || hasSubstr pat tl

/-- `_validate_response_structure`: returns the `content` dictionary or the
exception it raises.  The `.str`/`.arr` sub-cases for `results[0]` track
Python's behavior of `"content" in result` on non-dict values. -/
def validateResponseStructure : JVal → Except PyExc (List (String × JVal))
  | .obj fields =>
    match lookupKey fields "error" with
    | some _ => .error (classifyErrorDict fields)
    | none =>
      match lookupKey fields "results" with
      | none => .error (.validation "No 'results' field found in API response")
      | some (.arr (r0 :: _)) =>
        match r0 with
        | .obj rf =>
          match lookupKey rf "content" with
          | none => .error (.validation "No 'content' field found in first result")
          | some (.obj c) => .ok c
          | some _ => .error (.validation "Content field must be a dictionary")
        | .str s =>
          if hasSubstr "content".data s.data then
            .error (.typeError "string indices must be integers")
          else .error (.validation "No 'content' field found in first result")
        | .arr xs =>
          if xs.any (fun x => match x with | .str t => t = "content" | _ => false) then
            .error (.typeError "list indices must be integers or slices, not str")
          else .error (.validation "No 'content' field found in first result")
        | _ => .error (.typeError "argument of type is not iterable")
      | some (.arr []) => .error (.validation "Results field must be a non-empty list")
      | some _ => .error (.validation "Results field must be a non-empty list")
  | _ => .error (.validation "Response must be a dictionary")

/-! ### Canonical record and envelope assembly -/

/-- The working record initialized at the top of
`extract_and_format_product_data` (the timestamp is supplied by the caller
of the model, standing for `time.strftime` at invocation time). -/
structure ProductData where
  name : String
  brand : String
  price : String
  rating : String
  reviews_count : String
  description : String
  bullet_points : List String
  images : List String
  specifications : List (String × JVal)
  availability : String
  url : String
  scraped_at : String
  error : Option String

def initProductData : ProductData :=
  { name := "", brand := "", price := "", rating := "", reviews_count := ""
    description := "", bullet_points := [], images := [], specifications := []
    availability := "", url := "", scraped_at := "", error := none }

/-- The per-field extraction block of `extract_and_format_product_data`.
Each extractor is total except the price one, whose exception is swallowed
(leaving the initialized `""`), matching the per-field `try`/`except`. -/
def extractFields (content : List (String × JVal)) : ProductData :=
  { initProductData with
    name := safeExtractText content ["title", "name", "product_title"]
    brand := safeExtractText content ["brand", "manufacturer", "brand_name"]
    price := (extractAndFormatPrice content).getD ""
    rating := extractRating content
    reviews_count := extractReviewsCount content
    description := safeExtractText content ["description", "product_description", "about"]
    bullet_points := extractBulletPoints content
    images := extractImages content
    specifications := extractSpecifications content
    availability := safeExtractText content ["availability", "stock_status", "in_stock"]
    url := safeExtractText content ["url", "product_url", "link"] }

/-- `_validate_extracted_data`: the required keys are always present in the
initialized record so the `ValidationError` branch is unreachable; the price
format, rating range, and reviews-count checks only log warnings.  The
check therefore always passes. -/
def validateExtractedData (_pd : ProductData) : Except PyExc Unit := .ok ()

/-- The output side of `_create_clean_json_structure` (field names and
order follow the source dictionary literal). -/
structure ProductOut where
  name : String
  brand : String
  price : String
  rating : String
  reviews_count : String
  description : String
  bullet_points : String
  features : List String
  images : List String
  specifications : List (String × JVal)
  availability : String
  url : String
  scraped_at : String

structure MetaOut where
  extraction_successful : Bool
  error_message : Option String
  fields_extracted : Nat

structure Envelope where
  product : ProductOut
  metadata : MetaOut

/-- Python `x or default` on strings. -/
def orDefault (s d : String) : String := if s = "" then d else s

def primaryFieldValues (pd : ProductData) : List String :=
  [pd.name, pd.brand, pd.price, pd.rating, pd.reviews_count, pd.description]

/-- The `fields_extracted` sum in `_create_clean_json_structure`. -/
def fieldsExtracted (pd : ProductData) : Nat :=
  (primaryFieldValues pd).countP (fun s => s ≠ "")

/-- The readable bullet text: `"\n".join(f"• <point>")` when non-empty. -/
def bulletPointsText (points : List String) : String :=
  if points.isEmpty then ""
  else String.intercalate "\n" (points.map (fun point => "• " ++ point))

/-- `_create_clean_json_structure`. -/
def createCleanJsonStructure (pd : ProductData) : Envelope :=
  { product :=
      { name := orDefault pd.name "Unknown"
        brand := orDefault pd.brand "Unknown"
        price := orDefault pd.price "0.00"
        rating := orDefault pd.rating "0"
        reviews_count := orDefault pd.reviews_count "0"
        description := pd.description
        bullet_points := bulletPointsText pd.bullet_points
        features := pd.bullet_points
        images := pd.images
        specifications := pd.specifications
        availability := pd.availability
        url := pd.url
        scraped_at := pd.scraped_at }
    metadata :=
      { extraction_successful := pd.error.isNone
        error_message := pd.error
        fields_extracted := fieldsExtracted pd } }

/-- The record produced by the body of `extract_and_format_product_data`
before assembly: validation, per-field extraction, exception folding. -/
def extractPd (now : String) (resp : JVal) : ProductData :=
  match validateResponseStructure resp with
  | .ok content =>
    let pd := { extractFields content with scraped_at := now }
    match validateExtractedData pd with
    | .ok _ => pd
    | .error e => { pd with error := some (excMessage e) }
  | .error e => { initProductData with scraped_at := now, error := some (excMessage e) }

/-- `extract_and_format_product_data`: validation, per-field extraction,
exception folding, assembly.  Every failure path ends in
`createCleanJsonStructure`, never in an exception. -/
def extractAndFormatProductData (now : String) (resp : JVal) : Envelope :=
  createCleanJsonStructure (extractPd now resp)

def optStrJVal : Option String → JVal
  | none => .null
  | some s => .str s

/-- The envelope rendered back as a JSON document (the wire shape the
caller serializes). -/
def envelopeToJVal (e : Envelope) : JVal :=
  .obj [
    ("product", .obj [
      ("name", .str e.product.name),
      ("brand", .str e.product.brand),
      ("price", .str e.product.price),
      ("rating", .str e.product.rating),
      ("reviews_count", .str e.product.reviews_count),
      ("description", .str e.product.description),
      ("bullet_points", .str e.product.bullet_points),
      ("features", .arr (e.product.features.map JVal.str)),
      ("images", .arr (e.product.images.map JVal.str)),
      ("specifications", .obj e.product.specifications),
      ("availability", .str e.product.availability),
      ("url", .str e.product.url),
      ("scraped_at", .str e.product.scraped_at)]),
    ("metadata", .obj [
      ("extraction_successful", .bool e.metadata.extraction_successful),
      ("error_message", optStrJVal e.metadata.error_message),
      ("fields_extracted", .int e.metadata.fields_extracted)])]

/-! ### The resilient request pipeline (`_make_request_with_retry`) -/

def MAX_RETRIES : Nat := 3
def RETRY_DELAY : Nat := 1
def RETRY_BACKOFF : Nat := 2

/-- What the upstream does on one attempt, as seen through `requests`:
either a parsed JSON body or one of the exception classes the source
catches (`httpError s` stands for `HTTPError` with `response.status_code
= s`, only reachable for `s ≥ 400` since `raise_for_status` is silent
otherwise). -/
inductive AttemptOutcome where
  | success (body : JVal)
  | timeout
  | httpError (status : Nat)
  | connError
  | reqError
  | jsonError
  | unexpected

/-- Modelled `str(e)` of the underlying exception object (the exact text is
environment-generated; only its identity matters to the claims). -/
def excDescr : AttemptOutcome → String
  | .success _ => ""
  | .timeout => "Timeout"
  | .httpError s => "HTTP " ++ toString s
  | .connError => "ConnectionError"
  | .reqError => "RequestException"
  | .jsonError => "JSONDecodeError"
  | .unexpected => "Exception"

inductive ScraperError where
  | invalidASIN (msg : String)
  | invalidCredentials (msg : String)
  | rateLimit (msg : String)
  | apiConnection (msg : String)
  | dataExtraction (msg : String)
  deriving DecidableEq

def retryExhaustedMsg (last : Option String) : String :=
  "Request failed after " ++ toString MAX_RETRIES ++ " attempts. Last error: " ++
    last.getD "None"

/-- `RETRY_DELAY * (RETRY_BACKOFF ** attempt)`. -/
def sleepGeneric (attempt : Nat) : Nat := RETRY_DELAY * RETRY_BACKOFF ^ attempt

/-- `RETRY_DELAY * (RETRY_BACKOFF ** attempt) * 2` (rate-limit branch). -/
def sleepRate (attempt : Nat) : Nat := RETRY_DELAY * RETRY_BACKOFF ^ attempt * 2

/-- Result of a fetch: classified result, number of upstream calls made,
and the list of backoff sleep durations in order. -/
def RetryRes := Except ScraperError JVal × Nat × List Nat

/-- The retry loop of `_make_request_with_retry`: `rem` is the number of
attempts still available (the loop body for attempt `attempt` runs when
`rem > 0`; `rem = 0` is the fall-through `raise APIConnectionError` after
the loop), `last` is `last_exception`. -/
def retryFrom (oc : Nat → AttemptOutcome) : Nat → Nat → Option String → RetryRes
  | 0, _, last => (.error (.apiConnection (retryExhaustedMsg last)), 0, [])
  | rem + 1, attempt, last =>
    match oc attempt with
    | .success body => (.ok body, 1, [])
    | .timeout =>
      if rem = 0 then
        (.error (.apiConnection (retryExhaustedMsg (some (excDescr .timeout)))), 1, [])
      else
        let r := retryFrom oc rem (attempt + 1) (some (excDescr .timeout))
        (r.1, r.2.1 + 1, sleepGeneric attempt :: r.2.2)
    | .httpError s =>
      if s = 401 then (.error (.invalidCredentials "Invalid API credentials"), 1, [])
      else if s = 429 then
        if rem = 0 then (.error (.rateLimit "Rate limit exceeded after retries"), 1, [])
        else
          let r := retryFrom oc rem (attempt + 1) last
          (r.1, r.2.1 + 1, sleepRate attempt :: r.2.2)
      else if 500 ≤ s then
        if rem = 0 then
          (.error (.apiConnection (retryExhaustedMsg (some (excDescr (.httpError s))))), 1, [])
        else
          let r := retryFrom oc rem (attempt + 1) (some (excDescr (.httpError s)))
          (r.1, r.2.1 + 1, sleepGeneric attempt :: r.2.2)
      else
        (.error (.apiConnection
          ("HTTP error " ++ toString s ++ ": " ++ excDescr (.httpError s))), 1, [])
    | .connError =>
      if rem = 0 then
        (.error (.apiConnection (retryExhaustedMsg (some (excDescr .connError)))), 1, [])
      else
        let r := retryFrom oc rem (attempt + 1) (some (excDescr .connError))
        (r.1, r.2.1 + 1, sleepGeneric attempt :: r.2.2)
    | .reqError =>
      if rem = 0 then
        (.error (.apiConnection (retryExhaustedMsg (some (excDescr .reqError)))), 1, [])
      else
        let r := retryFrom oc rem (attempt + 1) (some (excDescr .reqError))
        (r.1, r.2.1 + 1, sleepGeneric attempt :: r.2.2)
    | .jsonError =>
      (.error (.dataExtraction ("Invalid JSON response: " ++ excDescr .jsonError)), 1, [])
    | .unexpected =>
      if rem = 0 then
        (.error (.apiConnection (retryExhaustedMsg (some (excDescr .unexpected)))), 1, [])
      else
        let r := retryFrom oc rem (attempt + 1) (some (excDescr .unexpected))
        (r.1, r.2.1 + 1, sleepGeneric attempt :: r.2.2)

/-- `_validate_credentials` (the raised message, if any). -/
def validateCredentials (username password : String) : Option String :=
  if username = "" || password = "" then some "Username and password are required"
  else if username.length < 3 || password.length < 3 then some "Invalid credential format"
  else none

/-- `_make_request_with_retry`: credential check, then ASIN extraction,
then up to `MAX_RETRIES` upstream calls. -/
def makeRequestWithRetry (username password url : String)
    (oc : Nat → AttemptOutcome) : RetryRes :=
  match validateCredentials username password with
  | some m => (.error (.invalidCredentials m), 0, [])
  | none =>
    match extractAsinFromUrl url with
    | .error m => (.error (.invalidASIN m), 0, [])
    | .ok _ => retryFrom oc MAX_RETRIES 0 none

def fetchResult (username password url : String) (oc : Nat → AttemptOutcome) :
    Except ScraperError JVal :=
  (makeRequestWithRetry username password url oc).1

def fetchCalls (username password url : String) (oc : Nat → AttemptOutcome) : Nat :=
  (makeRequestWithRetry username password url oc).2.1

def fetchSleeps (username password url : String) (oc : Nat → AttemptOutcome) : List Nat :=
  (makeRequestWithRetry username password url oc).2.2

def scraperErrorTag : ScraperError → String
  | .invalidASIN _ => "invalid_asin"
  | .invalidCredentials _ => "invalid_credentials"
  | .rateLimit _ => "rate_limit"
  | .apiConnection _ => "connection_error"
  | .dataExtraction _ => "data_extraction_error"

def scraperErrorMsg : ScraperError → String
  | .invalidASIN m => m
  | .invalidCredentials m => m
  | .rateLimit m => m
  | .apiConnection m => m
  | .dataExtraction m => m

/-- `_make_request`: every classified error becomes an error-marker
dictionary instead of an exception. -/
def makeRequest (username password url : String) (oc : Nat → AttemptOutcome) : JVal :=
  match (makeRequestWithRetry username password url oc).1 with
  | .ok j => j
  | .error e => .obj [("error", .str (scraperErrorTag e)), ("message", .str (scraperErrorMsg e))]

/-- `scrape_product`: request, normalize, patch the caller's URL into the
product record. -/
def scrapeProduct (username password productUrl _geoLocation : String)
    (oc : Nat → AttemptOutcome) (now : String) : Envelope :=
  let response := makeRequest username password productUrl oc
  let productData := extractAndFormatProductData now response
  { productData with product := { productData.product with url := productUrl } }

/-! ### Observation helpers and concrete inputs used by the claims -/

def objFieldNames : JVal → List String
  | .obj fs => fs.map Prod.fst
  | _ => []

def getField (j : JVal) (k : String) : Option JVal :=
  match j with
  | .obj fs => lookupKey fs k
  | _ => none

def getField2 (j : JVal) (k k' : String) : Option JVal :=
  match getField j k with
  | some v => getField v k'
  | none => none

def isArr : JVal → Bool
  | .arr _ => true
  | _ => false

/-- Whether an attempt outcome takes one of the retrying branches of
`_make_request_with_retry`. -/
def retryableOutcome : AttemptOutcome → Bool
  | .timeout => true
  | .connError => true
  | .reqError => true
  | .unexpected => true
  | .httpError s => s == 429 || 500 ≤ s
  | _ => false

def isRateLimited : AttemptOutcome → Bool
  | .httpError s => s == 429
  | _ => false

/-- The sleep performed after a failed (non-final) attempt. -/
def backoffSleep (o : AttemptOutcome) (attempt : Nat) : Nat :=
  if isRateLimited o then sleepRate attempt else sleepGeneric attempt

/-- An envelope with its timestamp blanked, to compare the
timestamp-independent part of two normalizations. -/
def stripTime (e : Envelope) : Envelope :=
  { e with product := { e.product with scraped_at := "" } }

/-- The structurally valid but sparse payload of C2. -/
def sparsePayload : JVal :=
  .obj [("results", .arr [.obj [("content", .obj [("title", .str "X")])]])]

/-- Payload whose content carries a list-typed `bullet_points`. -/
def bulletPayload : JVal :=
  .obj [("results", .arr [.obj [("content",
    .obj [("bullet_points", .arr [.str "a", .str "b"])])]])]

/-- Payload whose content carries a numeric price `0`. -/
def priceZeroPayload : JVal :=
  .obj [("results", .arr [.obj [("content", .obj [("price", .int 0)])]])]

/-- Payload whose content carries a numeric rating `0`. -/
def ratingZeroPayload : JVal :=
  .obj [("results", .arr [.obj [("content", .obj [("rating", .int 0)])]])]

/-- Payload whose content carries a numeric reviews count `0`. -/
def reviewsZeroPayload : JVal :=
  .obj [("results", .arr [.obj [("content", .obj [("reviews_count", .int 0)])]])]

/-- A product URL whose ASIN extraction succeeds. -/
def goodUrl : String := "https://www.amazon.com/dp/B08N5WRWNW"

/-- A URL matching none of the four ASIN patterns. -/
def badUrl : String := "https://www.amazon.com/item/12345"

/-- Upstream behavior: two connection failures, then success. -/
def ocConnThenOk : Nat → AttemptOutcome := fun k =>
  if k < 2 then .connError else .success .null

/-- Upstream behavior: three server errors, then success. -/
def ocServerThenOk : Nat → AttemptOutcome := fun k =>
  if k < 3 then .httpError 503 else .success .null

/-- Upstream behavior: always a 503 server error. -/
def ocAll503 : Nat → AttemptOutcome := fun _ => .httpError 503

/-- Upstream behavior: always a 429 response. -/
def ocAll429 : Nat → AttemptOutcome := fun _ => .httpError 429

/-- Upstream behavior: always an unclassified exception. -/
def ocAllUnexpected : Nat → AttemptOutcome := fun _ => .unexpected

/-! ## Helper lemmas -/

theorem lookupKey_erase_self (k : String) :
    ∀ fs, lookupKey (eraseKey k fs) k = none := by
  intro fs
  induction fs with
  | nil => rfl
  | cons p rest ih =>
    obtain ⟨a, v⟩ := p
    by_cases h : a = k
    · simpa [eraseKey, h] using ih
    · simp [eraseKey, lookupKey, h, ih]

theorem lookupKey_erase_ne (k q : String) (hne : q ≠ k) :
    ∀ fs, lookupKey (eraseKey k fs) q = lookupKey fs q := by
  intro fs
  induction fs with
  | nil => rfl
  | cons p rest ih =>
    obtain ⟨a, v⟩ := p
    by_cases h : a = k
    · have ha : ¬ a = q := fun hh => hne (hh ▸ h)
      have hk : ¬ k = q := fun hh => hne hh.symm
      simp [eraseKey, h, lookupKey, ha, hk, ih]
    · by_cases h2 : a = q
      · simp [eraseKey, h, lookupKey, h2, hne]
      · simp [eraseKey, h, lookupKey, h2, ih]

theorem fieldsExtracted_le_six (pd : ProductData) : fieldsExtracted pd ≤ 6 := by
  have := List.countP_le_length (l := primaryFieldValues pd)
    (p := fun s => decide (s ≠ ""))
  simpa [fieldsExtracted, primaryFieldValues] using this

theorem clean_success_iff (pd : ProductData) :
    ((createCleanJsonStructure pd).metadata.extraction_successful = true ↔
      (createCleanJsonStructure pd).metadata.error_message = none) := by
  cases h : pd.error <;> simp [createCleanJsonStructure, h]

theorem retryFrom_success (oc : Nat → AttemptOutcome) (rem attempt : Nat)
    (last : Option String) (b : JVal) (ho : oc attempt = .success b) :
    retryFrom oc (rem + 1) attempt last = (.ok b, 1, []) := by
  simp [retryFrom, ho]

theorem retryFrom_server (oc : Nat → AttemptOutcome) (rem attempt : Nat)
    (last : Option String) (s : Nat) (ho : oc attempt = .httpError s) (hs : 500 ≤ s) :
    retryFrom oc (rem + 2) attempt last =
      ((retryFrom oc (rem + 1) (attempt + 1) (some (excDescr (.httpError s)))).1,
       (retryFrom oc (rem + 1) (attempt + 1) (some (excDescr (.httpError s)))).2.1 + 1,
       sleepGeneric attempt ::
         (retryFrom oc (rem + 1) (attempt + 1) (some (excDescr (.httpError s)))).2.2) := by
  have h401 : s ≠ 401 := by omega
  have h429 : s ≠ 429 := by omega
  simp [retryFrom, ho, h401, h429, hs]

theorem retryFrom_server_last (oc : Nat → AttemptOutcome) (attempt : Nat)
    (last : Option String) (s : Nat) (ho : oc attempt = .httpError s) (hs : 500 ≤ s) :
    retryFrom oc 1 attempt last =
      (.error (.apiConnection (retryExhaustedMsg (some (excDescr (.httpError s))))), 1, []) := by
  have h401 : s ≠ 401 := by omega
  have h429 : s ≠ 429 := by omega
  show retryFrom oc (0 + 1) attempt last = _
  simp [retryFrom, ho, h401, h429, hs]

theorem retryFrom_429 (oc : Nat → AttemptOutcome) (rem attempt : Nat)
    (last : Option String) (ho : oc attempt = .httpError 429) :
    retryFrom oc (rem + 2) attempt last =
      ((retryFrom oc (rem + 1) (attempt + 1) last).1,
       (retryFrom oc (rem + 1) (attempt + 1) last).2.1 + 1,
       sleepRate attempt :: (retryFrom oc (rem + 1) (attempt + 1) last).2.2) := by
  simp [retryFrom, ho]

theorem retryFrom_429_last (oc : Nat → AttemptOutcome) (attempt : Nat)
    (last : Option String) (ho : oc attempt = .httpError 429) :
    retryFrom oc 1 attempt last =
      (.error (.rateLimit "Rate limit exceeded after retries"), 1, []) := by
  show retryFrom oc (0 + 1) attempt last = _
  simp [retryFrom, ho]

theorem retryFrom_retryable_step (oc : Nat → AttemptOutcome) (rem attempt : Nat)
    (last : Option String) (hr : retryableOutcome (oc attempt) = true) :
    ∃ last2, retryFrom oc (rem + 2) attempt last =
      ((retryFrom oc (rem + 1) (attempt + 1) last2).1,
       (retryFrom oc (rem + 1) (attempt + 1) last2).2.1 + 1,
       backoffSleep (oc attempt) attempt ::
         (retryFrom oc (rem + 1) (attempt + 1) last2).2.2) := by
  cases ho : oc attempt with
  | success b => rw [ho] at hr; simp [retryableOutcome] at hr
  | timeout =>
    exact ⟨some (excDescr .timeout),
      by simp [retryFrom, ho, backoffSleep, isRateLimited]⟩
  | connError =>
    exact ⟨some (excDescr .connError),
      by simp [retryFrom, ho, backoffSleep, isRateLimited]⟩
  | reqError =>
    exact ⟨some (excDescr .reqError),
      by simp [retryFrom, ho, backoffSleep, isRateLimited]⟩
  | unexpected =>
    exact ⟨some (excDescr .unexpected),
      by simp [retryFrom, ho, backoffSleep, isRateLimited]⟩
  | jsonError => rw [ho] at hr; simp [retryableOutcome] at hr
  | httpError s =>
    rw [ho] at hr
    simp only [retryableOutcome, Bool.or_eq_true, beq_iff_eq, decide_eq_true_eq] at hr
    rcases hr with rfl | hs
    · exact ⟨last, by simpa [backoffSleep, isRateLimited, ho] using retryFrom_429 oc rem attempt last ho⟩
    · have h429 : s ≠ 429 := by omega
      exact ⟨some (excDescr (.httpError s)),
        by simpa [backoffSleep, isRateLimited, ho, h429] using
          retryFrom_server oc rem attempt last s ho hs⟩

theorem safeExtractText_erase (content : List (String × JVal)) (k : String) (v : JVal)
    (hv : lookupKey content k = some v) (hf : truthy v = false) :
    ∀ keys, safeExtractText (eraseKey k content) keys = safeExtractText content keys := by
  intro keys
  induction keys with
  | nil => rfl
  | cons key ks ih =>
    by_cases hk : key = k
    · subst hk
      simp only [safeExtractText, lookupKey_erase_self, hv, hf]
      exact ih
    · have hl := lookupKey_erase_ne k key hk content
      simp only [safeExtractText, hl]
      cases h : lookupKey content key with
      | none => exact ih
      | some w =>
        by_cases hw : truthy w = true
        · cases w <;> simp [hw] <;> exact ih
        · simpa [hw] using ih

theorem extractPriceLoop_erase (content : List (String × JVal)) (k : String) (v : JVal)
    (hv : lookupKey content k = some v) (hf : truthy v = false) :
    ∀ keys, extractPriceLoop (eraseKey k content) keys = extractPriceLoop content keys := by
  intro keys
  induction keys with
  | nil => rfl
  | cons key ks ih =>
    by_cases hk : key = k
    · subst hk
      simp only [extractPriceLoop, lookupKey_erase_self, hv, hf]
      exact ih
    · have hl := lookupKey_erase_ne k key hk content
      simp only [extractPriceLoop, hl]
      cases h : lookupKey content key with
      | none => exact ih
      | some w =>
        by_cases hw : truthy w = true
        · cases w with
          | null => simpa [hw] using ih
          | bool b => simp [hw]
          | int n => simp [hw]
          | str s => simp [hw]
          | arr xs => simpa [hw] using ih
          | obj fs =>
            cases h2 : lookupKey fs "value" with
            | some pv => simp [hw, h2]
            | none =>
              cases h3 : lookupKey fs "amount" with
              | some av => simp [hw, h2, h3]
              | none => simpa [hw, h2, h3] using ih
        · simpa [hw] using ih

theorem extractBulletLoop_erase (content : List (String × JVal)) (k : String) (v : JVal)
    (hv : lookupKey content k = some v) (hf : truthy v = false) :
    ∀ keys, extractBulletLoop (eraseKey k content) keys = extractBulletLoop content keys := by
  intro keys
  induction keys with
  | nil => rfl
  | cons key ks ih =>
    by_cases hk : key = k
    · subst hk
      simp only [extractBulletLoop, lookupKey_erase_self, hv, hf]
      exact ih
    · have hl := lookupKey_erase_ne k key hk content
      simp only [extractBulletLoop, hl]
      cases h : lookupKey content key with
      | none => exact ih
      | some w =>
        by_cases hw : truthy w = true
        · cases w <;> simp [hw] <;> exact ih
        · simpa [hw] using ih

theorem extractImagesLoop_erase (content : List (String × JVal)) (k : String) (v : JVal)
    (hv : lookupKey content k = some v) (hf : truthy v = false) :
    ∀ keys, extractImagesLoop (eraseKey k content) keys = extractImagesLoop content keys := by
  intro keys
  induction keys with
  | nil => rfl
  | cons key ks ih =>
    by_cases hk : key = k
    · subst hk
      simp only [extractImagesLoop, lookupKey_erase_self, hv, hf]
      exact ih
    · have hl := lookupKey_erase_ne k key hk content
      simp only [extractImagesLoop, hl]
      cases h : lookupKey content key with
      | none => exact ih
      | some w =>
        by_cases hw : truthy w = true
        · cases w <;> simp [hw] <;> exact ih
        · simpa [hw] using ih

theorem extractSpecsLoop_erase (content : List (String × JVal)) (k : String) (v : JVal)
    (hv : lookupKey content k = some v) (hf : truthy v = false) :
    ∀ keys, extractSpecsLoop (eraseKey k content) keys = extractSpecsLoop content keys := by
  intro keys
  induction keys with
  | nil => rfl
  | cons key ks ih =>
    by_cases hk : key = k
    · subst hk
      simp only [extractSpecsLoop, lookupKey_erase_self, hv, hf]
      exact ih
    · have hl := lookupKey_erase_ne k key hk content
      simp only [extractSpecsLoop, hl]
      cases h : lookupKey content key with
      | none => exact ih
      | some w =>
        by_cases hw : truthy w = true
        · cases w <;> simp [hw] <;> exact ih
        · simpa [hw] using ih

theorem extractRatingLoop_erase (content : List (String × JVal)) (k : String)
    (hv : lookupKey content k = some .null) :
    ∀ keys, extractRatingLoop (eraseKey k content) keys = extractRatingLoop content keys := by
  intro keys
  induction keys with
  | nil => rfl
  | cons key ks ih =>
    by_cases hk : key = k
    · subst hk
      simp only [extractRatingLoop, lookupKey_erase_self, hv]
      exact ih
    · have hl := lookupKey_erase_ne k key hk content
      simp only [extractRatingLoop, hl]
      cases h : lookupKey content key with
      | none => exact ih
      | some w =>
        cases w with
        | null => exact ih
        | str s => rfl
        | int n => rfl
        | bool b => rfl
        | arr xs => exact ih
        | obj fs =>
          cases h2 : lookupKey fs "value" with
          | some pv => simp [h2]
          | none => simpa [h2] using ih

theorem extractReviewsLoop_erase (content : List (String × JVal)) (k : String)
    (hv : lookupKey content k = some .null) :
    ∀ keys, extractReviewsLoop (eraseKey k content) keys = extractReviewsLoop content keys := by
  intro keys
  induction keys with
  | nil => rfl
  | cons key ks ih =>
    by_cases hk : key = k
    · subst hk
      simp only [extractReviewsLoop, lookupKey_erase_self, hv]
      exact ih
    · have hl := lookupKey_erase_ne k key hk content
      simp only [extractReviewsLoop, hl]
      cases h : lookupKey content key with
      | none => exact ih
      | some w =>
        cases w with
        | null => exact ih
        | str s => rfl
        | int n => rfl
        | bool b => rfl
        | arr xs => exact ih
        | obj fs => exact ih

/-! ## The claims -/

/-- C2: normalizing the structurally valid but sparse payload
`{"results": [{"content": {"title": "X"}}]}` yields `name="X"`,
`brand="Unknown"`, `price="0.00"`, `rating="0"`, `reviews_count="0"`,
`fields_extracted=1`, and `extraction_successful=true`, for any invocation
timestamp. -/
theorem c2_sparse_payload (now : String) :
    (extractAndFormatProductData now sparsePayload).product.name = "X" ∧
    (extractAndFormatProductData now sparsePayload).product.brand = "Unknown" ∧
    (extractAndFormatProductData now sparsePayload).product.price = "0.00" ∧
    (extractAndFormatProductData now sparsePayload).product.rating = "0" ∧
    (extractAndFormatProductData now sparsePayload).product.reviews_count = "0" ∧
    (extractAndFormatProductData now sparsePayload).metadata.fields_extracted = 1 ∧
    (extractAndFormatProductData now sparsePayload).metadata.extraction_successful = true :=
  ⟨rfl, rfl, rfl, rfl, rfl, rfl, rfl⟩

/-- C6: each of the payloads `{}`, `{"results": []}` and
`{"results": [{}]}` is rejected by structural validation: the record's
error slot receives the `ValidationError` message and the envelope reports
`extraction_successful=false` with a non-null `error_message` — the
function returns the envelope instead of raising. -/
theorem c6_structural_validation (now : String) :
    ((extractAndFormatProductData now (.obj [])).metadata.extraction_successful = false ∧
     (extractAndFormatProductData now (.obj [])).metadata.error_message =
       some "Validation error: No 'results' field found in API response") ∧
    ((extractAndFormatProductData now
        (.obj [("results", .arr [])])).metadata.extraction_successful = false ∧
     (extractAndFormatProductData now
        (.obj [("results", .arr [])])).metadata.error_message =
       some "Validation error: Results field must be a non-empty list") ∧
    ((extractAndFormatProductData now
        (.obj [("results", .arr [.obj []])])).metadata.extraction_successful = false ∧
     (extractAndFormatProductData now
        (.obj [("results", .arr [.obj []])])).metadata.error_message =
       some "Validation error: No 'content' field found in first result") :=
  ⟨⟨rfl, rfl⟩, ⟨rfl, rfl⟩, ⟨rfl, rfl⟩⟩

/-- C7: the price extractor is decimally exact: `"$1,234.50"` yields
exactly `"1234.50"` (the trailing zero preserved by the `Decimal`
representation), and an unparseable string `"not a price"` falls back to
the trimmed raw string. -/
theorem c7_price_decimal_exact :
    extractAndFormatPrice [("price", JVal.str "$1,234.50")] = some "1234.50" ∧
    extractAndFormatPrice [("price", JVal.str "not a price")] = some "not a price" :=
  ⟨rfl, rfl⟩

/-- C1: `scrape_product` is a total function of its inputs (no failure
escapes as an exception in the model), and for every credential pair, URL,
geo-location, upstream behavior and invocation time its result is an
envelope of the exact shape: top-level keys `product` and `metadata`, the
product carrying the thirteen record fields in order, the metadata carrying
`extraction_successful` (a boolean), `error_message` (string or null) and
`fields_extracted` (an integer in `[0,6]`); failure is signalled solely by
`extraction_successful = false` together with a non-null `error_message`. -/
theorem c1_envelope_shape (username password productUrl geoLocation now : String)
    (oc : Nat → AttemptOutcome) :
    let env := scrapeProduct username password productUrl geoLocation oc now
    let j := envelopeToJVal env
    objFieldNames j = ["product", "metadata"] ∧
    (∃ pf, getField j "product" = some (JVal.obj pf) ∧
      pf.map Prod.fst = ["name", "brand", "price", "rating", "reviews_count",
        "description", "bullet_points", "features", "images", "specifications",
        "availability", "url", "scraped_at"]) ∧
    getField2 j "metadata" "extraction_successful" =
      some (.bool env.metadata.extraction_successful) ∧
    getField2 j "metadata" "error_message" = some (optStrJVal env.metadata.error_message) ∧
    getField2 j "metadata" "fields_extracted" = some (.int env.metadata.fields_extracted) ∧
    env.metadata.fields_extracted ≤ 6 ∧
    (env.metadata.extraction_successful = true ↔ env.metadata.error_message = none) :=
  ⟨rfl, ⟨_, rfl, rfl⟩, rfl, rfl, rfl, fieldsExtracted_le_six _, clean_success_iff _⟩

/-- C8 counterexample: normalization reads the clock (`time.strftime`) on
every invocation and stores it in the record's `scraped_at` field, so two
normalizations of the same payload at different clock readings are not
byte-identical — the claim as stated (byte-identical including every
field) fails. -/
theorem c8_counterexample :
    extractAndFormatProductData "2025-01-01 10:00:00" sparsePayload ≠
      extractAndFormatProductData "2025-01-01 10:00:01" sparsePayload := by
  intro h
  have h2 : ("2025-01-01 10:00:00" : String) = "2025-01-01 10:00:01" :=
    congrArg (fun e => e.product.scraped_at) h
  exact absurd h2 (by decide)

/-- C8 amended: normalization is deterministic in the payload apart from
the `scraped_at` timestamp — for any payload and any two invocation times
the two records agree on every field except `scraped_at` (and with equal
clock readings they are byte-identical). -/
theorem c8_amended (payload : JVal) (t₁ t₂ : String) :
    stripTime (extractAndFormatProductData t₁ payload) =
      stripTime (extractAndFormatProductData t₂ payload) ∧
    extractAndFormatProductData t₁ payload = extractAndFormatProductData t₁ payload := by
  refine ⟨?_, rfl⟩
  unfold extractAndFormatProductData extractPd
  cases validateResponseStructure payload with
  | ok content => rfl
  | error e => rfl

/-- C9 counterexample: in the assembled envelope the product's
`bullet_points` field is a single rendered string (`"• <p>"` lines joined
by newlines), not an ordered sequence — shown on a content whose source
`bullet_points` is the list `["a", "b"]`. -/
theorem c9_counterexample :
    getField2 (envelopeToJVal (extractAndFormatProductData "t" bulletPayload))
        "product" "bullet_points" = some (JVal.str "• a\n• b") ∧
    (getField2 (envelopeToJVal (extractAndFormatProductData "t" bulletPayload))
        "product" "bullet_points").map isArr = some false :=
  ⟨rfl, rfl⟩

/-- C9 amended: the ordered sequence of bullet points lives in the
envelope's `features` field — for a list-typed source it is the
stringified, trimmed truthy elements in source order, and for a
string-typed source the pieces split on the bullet-glyph/newline delimiter
set, trimmed, with empties dropped — while the envelope's `bullet_points`
field is the readable string rendering of that sequence. -/
theorem c9_amended :
    (∀ k, k ∈ bulletKeys → ∀ items : List JVal, items ≠ [] →
      extractBulletPoints [(k, JVal.arr items)] =
        (items.filter truthy).map (fun i => pyStrip (pyStr i))) ∧
    (∀ k, k ∈ bulletKeys → ∀ s : String, s ≠ "" →
      extractBulletPoints [(k, JVal.str s)] =
        ((splitBullets s).map pyStrip).filter (fun p => p ≠ "")) ∧
    (∀ pd : ProductData,
      (createCleanJsonStructure pd).product.features = pd.bullet_points ∧
      (createCleanJsonStructure pd).product.bullet_points =
        bulletPointsText pd.bullet_points) := by
  refine ⟨?_, ?_, fun pd => ⟨rfl, rfl⟩⟩
  · intro k hk items hitems
    have ht : truthy (JVal.arr items) = true := by
      cases items with
      | nil => exact absurd rfl hitems
      | cons a l => rfl
    simp only [bulletKeys, List.mem_cons, List.not_mem_nil, or_false] at hk
    rcases hk with rfl | rfl | rfl | rfl | rfl <;>
      simp [extractBulletPoints, bulletKeys, extractBulletLoop, lookupKey, ht]
  · intro k hk s hs
    have ht : truthy (JVal.str s) = true := by simp [truthy, hs]
    simp only [bulletKeys, List.mem_cons, List.not_mem_nil, or_false] at hk
    rcases hk with rfl | rfl | rfl | rfl | rfl <;>
      simp [extractBulletPoints, bulletKeys, extractBulletLoop, lookupKey, ht]

/-- C3: within one logical fetch the backoff sleeps follow the schedule
`d·2^k` with base delay `d = RETRY_DELAY = 1` after failed attempt `k` for
generic retryable failures, and `d·2^k·2` for rate-limit failures; and an
upstream giving three consecutive 5xx failures followed by a success
yields exactly 3 upstream calls and exactly 2 sleeps with the second
strictly greater than the first. -/
theorem c3_backoff_schedule :
    (RETRY_DELAY = 1 ∧ RETRY_BACKOFF = 2 ∧
      ∀ k, sleepGeneric k = 1 * 2 ^ k ∧ sleepRate k = 1 * 2 ^ k * 2) ∧
    (∀ (oc : Nat → AttemptOutcome) (j : Nat) (b : JVal),
      j < MAX_RETRIES →
      (∀ k, k < j → retryableOutcome (oc k) = true) →
      oc j = .success b →
      retryFrom oc MAX_RETRIES 0 none =
        (.ok b, j + 1, (List.range j).map (fun k => backoffSleep (oc k) k))) ∧
    (∀ (username password url : String) (oc : Nat → AttemptOutcome) (b : JVal),
      validateCredentials username password = none →
      (∃ a, extractAsinFromUrl url = .ok a) →
      (∀ k, k < 3 → ∃ s, oc k = .httpError s ∧ 500 ≤ s) →
      oc 3 = .success b →
      fetchCalls username password url oc = 3 ∧
      fetchSleeps username password url oc = [sleepGeneric 0, sleepGeneric 1] ∧
      sleepGeneric 0 < sleepGeneric 1) := by
  refine ⟨⟨rfl, rfl, fun k => ⟨rfl, rfl⟩⟩, ?_, ?_⟩
  · intro oc j b hj hr hsucc
    have hj3 : j < 3 := hj
    interval_cases j
    · simpa using retryFrom_success oc 2 0 none b hsucc
    · obtain ⟨l2, h0⟩ := retryFrom_retryable_step oc 1 0 none (hr 0 (by omega))
      have h1 := retryFrom_success oc 1 1 l2 b hsucc
      norm_num at h0
      show retryFrom oc 3 0 none = _
      rw [h0, h1]
      simp [List.range_succ]
    · obtain ⟨l2, h0⟩ := retryFrom_retryable_step oc 1 0 none (hr 0 (by omega))
      obtain ⟨l3, h1⟩ := retryFrom_retryable_step oc 0 1 l2 (hr 1 (by omega))
      have h2 := retryFrom_success oc 0 2 l3 b hsucc
      norm_num at h0 h1
      show retryFrom oc 3 0 none = _
      rw [h0, h1, h2]
      simp [List.range_succ]
  · intro username password url oc b hcred hasin hsrv _hsucc
    obtain ⟨a, ha⟩ := hasin
    obtain ⟨s0, h0, hs0⟩ := hsrv 0 (by omega)
    obtain ⟨s1, h1, hs1⟩ := hsrv 1 (by omega)
    obtain ⟨s2, h2, hs2⟩ := hsrv 2 (by omega)
    have e0 := retryFrom_server oc 1 0 none s0 h0 hs0
    have e1 := retryFrom_server oc 0 1 (some (excDescr (.httpError s0))) s1 h1 hs1
    have e2 := retryFrom_server_last oc 2 (some (excDescr (.httpError s1))) s2 h2 hs2
    norm_num at e0 e1
    have hfetch : makeRequestWithRetry username password url oc = retryFrom oc 3 0 none := by
      simp [makeRequestWithRetry, hcred, ha, MAX_RETRIES]
    have E : retryFrom oc 3 0 none =
        (.error (.apiConnection (retryExhaustedMsg (some (excDescr (.httpError s2))))), 3,
          [sleepGeneric 0, sleepGeneric 1]) := by
      rw [e0, e1, e2]
    exact ⟨by simp [fetchCalls, hfetch, E], by simp [fetchSleeps, hfetch, E], by decide⟩

/-- C3 witnessed at concrete inputs: two connection failures then success
(schedule part), and three 503s then a success against a valid URL
(scenario part). -/
theorem c3_witness :
    (2 < MAX_RETRIES ∧ (∀ k, k < 2 → retryableOutcome (ocConnThenOk k) = true) ∧
      ocConnThenOk 2 = .success .null ∧
      retryFrom ocConnThenOk MAX_RETRIES 0 none =
        (.ok .null, 2 + 1, (List.range 2).map (fun k => backoffSleep (ocConnThenOk k) k))) ∧
    (validateCredentials "user" "pass" = none ∧
      (∀ k, k < 3 → ∃ s, ocServerThenOk k = .httpError s ∧ 500 ≤ s) ∧
      ocServerThenOk 3 = .success .null ∧
      fetchCalls "user" "pass" goodUrl ocServerThenOk = 3 ∧
      fetchSleeps "user" "pass" goodUrl ocServerThenOk = [sleepGeneric 0, sleepGeneric 1]) := by
  have hr : ∀ k, k < 2 → retryableOutcome (ocConnThenOk k) = true := by
    intro k hk; interval_cases k <;> rfl
  have hsrv : ∀ k, k < 3 → ∃ s, ocServerThenOk k = .httpError s ∧ 500 ≤ s := by
    intro k hk; exact ⟨503, by interval_cases k <;> rfl, by norm_num⟩
  have happ := c3_backoff_schedule.2.1 ocConnThenOk 2 .null (by norm_num [MAX_RETRIES]) hr rfl
  have happ2 := c3_backoff_schedule.2.2 "user" "pass" goodUrl ocServerThenOk .null rfl
    ⟨"B08N5WRWNW", rfl⟩ hsrv rfl
  exact ⟨⟨by norm_num [MAX_RETRIES], hr, rfl, happ⟩, rfl, hsrv, rfl, happ2.1, happ2.2.1⟩

/-- C4: when all `MAX_RETRIES` attempts fail retryably, the classified
error matches the terminal cause: three consecutive 5xx failures yield
`APIConnectionError` carrying the description of the last underlying error
after exactly 3 calls, and three consecutive 429 responses yield
`RateLimitError` after exactly 3 calls, the sleeps carrying the
rate-limit-specific multiplier. -/
theorem c4_exhausted_retries :
    (∀ (username password url : String) (oc : Nat → AttemptOutcome) (s0 s1 s2 : Nat),
      validateCredentials username password = none →
      (∃ a, extractAsinFromUrl url = .ok a) →
      oc 0 = .httpError s0 → 500 ≤ s0 →
      oc 1 = .httpError s1 → 500 ≤ s1 →
      oc 2 = .httpError s2 → 500 ≤ s2 →
      fetchResult username password url oc =
        .error (.apiConnection (retryExhaustedMsg (some (excDescr (.httpError s2))))) ∧
      fetchCalls username password url oc = 3) ∧
    (∀ (username password url : String) (oc : Nat → AttemptOutcome),
      validateCredentials username password = none →
      (∃ a, extractAsinFromUrl url = .ok a) →
      (∀ k, k < 3 → oc k = .httpError 429) →
      fetchResult username password url oc =
        .error (.rateLimit "Rate limit exceeded after retries") ∧
      fetchCalls username password url oc = 3 ∧
      fetchSleeps username password url oc = [sleepRate 0, sleepRate 1]) := by
  constructor
  · intro username password url oc s0 s1 s2 hcred hasin h0 hs0 h1 hs1 h2 hs2
    obtain ⟨a, ha⟩ := hasin
    have e0 := retryFrom_server oc 1 0 none s0 h0 hs0
    have e1 := retryFrom_server oc 0 1 (some (excDescr (.httpError s0))) s1 h1 hs1
    have e2 := retryFrom_server_last oc 2 (some (excDescr (.httpError s1))) s2 h2 hs2
    norm_num at e0 e1
    have hfetch : makeRequestWithRetry username password url oc = retryFrom oc 3 0 none := by
      simp [makeRequestWithRetry, hcred, ha, MAX_RETRIES]
    have E : retryFrom oc 3 0 none =
        (.error (.apiConnection (retryExhaustedMsg (some (excDescr (.httpError s2))))), 3,
          [sleepGeneric 0, sleepGeneric 1]) := by
      rw [e0, e1, e2]
    exact ⟨by simp [fetchResult, hfetch, E], by simp [fetchCalls, hfetch, E]⟩
  · intro username password url oc hcred hasin h429
    obtain ⟨a, ha⟩ := hasin
    have e0 := retryFrom_429 oc 1 0 none (h429 0 (by omega))
    have e1 := retryFrom_429 oc 0 1 none (h429 1 (by omega))
    have e2 := retryFrom_429_last oc 2 none (h429 2 (by omega))
    norm_num at e0 e1
    have hfetch : makeRequestWithRetry username password url oc = retryFrom oc 3 0 none := by
      simp [makeRequestWithRetry, hcred, ha, MAX_RETRIES]
    have E : retryFrom oc 3 0 none =
        (.error (.rateLimit "Rate limit exceeded after retries"), 3,
          [sleepRate 0, sleepRate 1]) := by
      rw [e0, e1, e2]
    exact ⟨by simp [fetchResult, hfetch, E], by simp [fetchCalls, hfetch, E],
      by simp [fetchSleeps, hfetch, E]⟩

/-- C4 witnessed at concrete inputs: all-503 and all-429 upstreams against
a valid URL and valid credentials. -/
theorem c4_witness :
    (validateCredentials "user" "pass" = none ∧
     ocAll503 0 = .httpError 503 ∧ 500 ≤ 503 ∧
     fetchResult "user" "pass" goodUrl ocAll503 =
       .error (.apiConnection (retryExhaustedMsg (some (excDescr (.httpError 503))))) ∧
     fetchCalls "user" "pass" goodUrl ocAll503 = 3) ∧
    (fetchResult "user" "pass" goodUrl ocAll429 =
       .error (.rateLimit "Rate limit exceeded after retries") ∧
     fetchCalls "user" "pass" goodUrl ocAll429 = 3 ∧
     fetchSleeps "user" "pass" goodUrl ocAll429 = [sleepRate 0, sleepRate 1]) := by
  have ha := c4_exhausted_retries.1 "user" "pass" goodUrl ocAll503 503 503 503 rfl
    ⟨"B08N5WRWNW", rfl⟩ rfl (by norm_num) rfl (by norm_num) rfl (by norm_num)
  have hb := c4_exhausted_retries.2 "user" "pass" goodUrl ocAll429 rfl
    ⟨"B08N5WRWNW", rfl⟩ (fun k _ => rfl)
  exact ⟨⟨rfl, rfl, by norm_num, ha.1, ha.2⟩, hb⟩

/-- C5: for every URL in which none of the four recognized URL shapes
captures an ASIN-shaped substring, a fetch with valid credentials yields
`InvalidASINError` having made zero upstream calls and zero sleeps (the
rejection happens before any network call). -/
theorem c5_invalid_identifier (username password url : String)
    (oc : Nat → AttemptOutcome)
    (hcred : validateCredentials username password = none)
    (hnone : ∀ p ∈ asinPatterns, searchPat p url = none) :
    makeRequestWithRetry username password url oc =
      (.error (.invalidASIN ("Invalid or missing ASIN in URL: " ++ url)), 0, []) := by
  have h1 := hnone "/dp/" (by simp [asinPatterns])
  have h2 := hnone "/product/" (by simp [asinPatterns])
  have h3 := hnone "/gp/product/" (by simp [asinPatterns])
  have h4 := hnone "asin=" (by simp [asinPatterns])
  have ht : tryPatterns url asinPatterns = none := by
    simp [asinPatterns, tryPatterns, h1, h2, h3, h4]
  simp [makeRequestWithRetry, hcred, extractAsinFromUrl, ht]

/-- C5 witnessed at a concrete ASIN-free URL. -/
theorem c5_witness :
    validateCredentials "user" "pass" = none ∧
    (∀ p ∈ asinPatterns, searchPat p badUrl = none) ∧
    makeRequestWithRetry "user" "pass" badUrl ocAllUnexpected =
      (.error (.invalidASIN ("Invalid or missing ASIN in URL: " ++ badUrl)), 0, []) :=
  ⟨rfl, by decide,
   c5_invalid_identifier "user" "pass" badUrl ocAllUnexpected rfl (by decide)⟩

/-- C9 amended, witnessed at concrete inputs. -/
theorem c9_amended_witness :
    extractBulletPoints [("bullet_points",
        JVal.arr [JVal.str " a ", JVal.str "", JVal.str "b"])] =
      (([JVal.str " a ", JVal.str "", JVal.str "b"].filter truthy).map
        (fun i => pyStrip (pyStr i))) ∧
    extractBulletPoints [("features", JVal.str "x• y")] =
      ((splitBullets "x• y").map pyStrip).filter (fun p => p ≠ "") ∧
    (createCleanJsonStructure initProductData).product.features =
      initProductData.bullet_points :=
  ⟨c9_amended.1 "bullet_points" (by simp [bulletKeys]) _ (by simp),
   c9_amended.2.1 "features" (by simp [bulletKeys]) "x• y" (by simp),
   (c9_amended.2.2 initProductData).1⟩

/-- C10: the text, price, bullet-point, image, and specification extractors
treat a key bound to a falsy value (empty string/list/mapping, `0`,
`False`, `null`) exactly as an absent key (erasing it does not change the
result), so a numeric price `0` falls through to the default `"0.00"`;
whereas the rating and reviews-count extractors skip only `null` values,
so numeric `0` ratings/counts are extracted as `"0"` and counted among the
populated fields. -/
theorem c10_falsy_value_handling :
    (∀ (content : List (String × JVal)) (k : String) (v : JVal) (keys : List String),
      lookupKey content k = some v → truthy v = false →
      safeExtractText (eraseKey k content) keys = safeExtractText content keys ∧
      extractPriceLoop (eraseKey k content) keys = extractPriceLoop content keys ∧
      extractBulletLoop (eraseKey k content) keys = extractBulletLoop content keys ∧
      extractImagesLoop (eraseKey k content) keys = extractImagesLoop content keys ∧
      extractSpecsLoop (eraseKey k content) keys = extractSpecsLoop content keys) ∧
    (∀ (content : List (String × JVal)) (k : String) (keys : List String),
      lookupKey content k = some .null →
      extractRatingLoop (eraseKey k content) keys = extractRatingLoop content keys ∧
      extractReviewsLoop (eraseKey k content) keys = extractReviewsLoop content keys) ∧
    (∀ now, (extractAndFormatProductData now priceZeroPayload).product.price = "0.00") ∧
    (∀ now,
      (extractAndFormatProductData now ratingZeroPayload).product.rating = "0" ∧
      (extractAndFormatProductData now ratingZeroPayload).metadata.fields_extracted = 1) ∧
    (∀ now,
      (extractAndFormatProductData now reviewsZeroPayload).product.reviews_count = "0" ∧
      (extractAndFormatProductData now reviewsZeroPayload).metadata.fields_extracted = 1) :=
  ⟨fun content k v keys hv hf =>
    ⟨safeExtractText_erase content k v hv hf keys,
     extractPriceLoop_erase content k v hv hf keys,
     extractBulletLoop_erase content k v hv hf keys,
     extractImagesLoop_erase content k v hv hf keys,
     extractSpecsLoop_erase content k v hv hf keys⟩,
   fun content k keys hv =>
    ⟨extractRatingLoop_erase content k hv keys,
     extractReviewsLoop_erase content k hv keys⟩,
   fun _ => rfl, fun _ => ⟨rfl, rfl⟩, fun _ => ⟨rfl, rfl⟩⟩

/-- C10 witnessed at concrete inputs: a falsy price key and a null rating
key behave as absent. -/
theorem c10_witness :
    lookupKey [("price", JVal.int 0)] "price" = some (JVal.int 0) ∧
    truthy (JVal.int 0) = false ∧
    extractPriceLoop (eraseKey "price" [("price", JVal.int 0)]) priceKeys =
      extractPriceLoop [("price", JVal.int 0)] priceKeys ∧
    lookupKey [("rating", JVal.null)] "rating" = some JVal.null ∧
    extractRatingLoop (eraseKey "rating" [("rating", JVal.null)]) ratingKeys =
      extractRatingLoop [("rating", JVal.null)] ratingKeys :=
  ⟨rfl, rfl,
   (c10_falsy_value_handling.1 [("price", JVal.int 0)] "price" (JVal.int 0)
     priceKeys rfl rfl).2.1,
   rfl,
   (c10_falsy_value_handling.2.1 [("rating", JVal.null)] "rating" ratingKeys rfl).1⟩

end Scraper
